import Mathlib

/-!
Verification of the FutureSignals crypto signal pipeline (src/app.py).

The pipeline is embedded shallowly: a pandas DataFrame of klines becomes a
`List Candle`; a DataFrame cell that may be NaN becomes an `Option ℚ`; the
session-state dictionary `st.session_state.last_signal` becomes a function
from symbol to `Option Signal`; one iteration of the `while True` loop over
`TOP_10_SYMBOLS` becomes `runPass`.
-/

namespace FutureSignals

/-- One kline row as produced by `get_binance_klines`: the numeric columns
open, high, low, close, volume (the time index is irrelevant to the claims). -/
structure Candle where
  opn : ℚ
  high : ℚ
  low : ℚ
  close : ℚ
  volume : ℚ
deriving DecidableEq

/-- The closed set of strings returned by `generate_signal` in src/app.py:
STRONG BUY, BUY, OVERBOUGHT, HOLD, Not Available, Error. -/
inductive Signal where
  | strongBuy
  | buy
  | overbought
  | hold
  | notAvailable
  | error
deriving DecidableEq

/-- `REFRESH_INTERVAL = 300` from src/app.py, used both as the sleep cadence
and as the ttl of the data cache. -/
def REFRESH_INTERVAL : ℕ := 300

/-- Modelled from the spec: `pandas_ta.sma(length=n)` is not part of this
repository; per the spec it is the arithmetic mean of the trailing n closes,
absent while fewer than n closes exist at that position. `smaAt n closes i`
is the value of the SMA_n column at row index i. -/
def smaAt (n : ℕ) (closes : List ℚ) (i : ℕ) : Option ℚ :=
  if n ≤ i + 1 ∧ i < closes.length then
    some ((((closes.drop (i + 1 - n)).take n).sum) / (n : ℚ))
  else none

/-- Wilder forward smoothing: starting from a seed average, fold each new
value x as (a * (period - 1) + x) / period. -/
def wilderSmooth (period : ℕ) (seed : ℚ) (rest : List ℚ) : ℚ :=
  rest.foldl (fun a x => (a * ((period : ℚ) - 1) + x) / (period : ℚ)) seed

/-- Modelled from the spec: the RSI implementation (`pandas_ta.rsi`,
length 14) is not part of this repository. Per the spec it is a Wilder-style
smoothed oscillator over closing-price deltas: average gain and average loss
seeded from the first `period` deltas then smoothed forward, absent while
fewer than `period` deltas exist, with the denominator-zero convention that a
zero-movement series yields 100. `rsiLast period closes` is the RSI of the
final close of the series. -/
def rsiLast (period : ℕ) (closes : List ℚ) : Option ℚ :=
  let deltas := (closes.zip (closes.drop 1)).map (fun p => p.2 - p.1)
  if deltas.length < period then none
  else
    let gains := deltas.map (fun d => max d 0)
    let losses := deltas.map (fun d => max (-d) 0)
    let avgG := wilderSmooth period ((gains.take period).sum / (period : ℚ)) (gains.drop period)
    let avgL := wilderSmooth period ((losses.take period).sum / (period : ℚ)) (losses.drop period)
    if avgG + avgL = 0 then some 100
    else some (100 * avgG / (avgG + avgL))

/-- The RSI column value at row index i: the RSI of the prefix of closes
ending at i. -/
def rsiAt (period : ℕ) (closes : List ℚ) (i : ℕ) : Option ℚ :=
  rsiLast period (closes.take (i + 1))

/-- One row of the DataFrame returned by `compute_indicators`: the original
candle columns untouched, plus the appended RSI, SMA_9, SMA_21 columns
(absent = NaN during warm-up). -/
structure IndicatorRow where
  candle : Candle
  rsi : Option ℚ
  sma9 : Option ℚ
  sma21 : Option ℚ
deriving DecidableEq

/-- The columns of an indicator DataFrame row that `generate_signal` reads:
close, RSI, SMA_9, SMA_21. Each cell may be NaN, modelled as `none`. -/
structure SignalRow where
  close : Option ℚ
  rsi : Option ℚ
  sma9 : Option ℚ
  sma21 : Option ℚ
deriving DecidableEq

/-- Column selection: the view of an indicator row that `generate_signal`
reads. The close column of a fetched candle is always a number. -/
def IndicatorRow.toSignalRow (r : IndicatorRow) : SignalRow :=
  ⟨some r.candle.close, r.rsi, r.sma9, r.sma21⟩

/-- `compute_indicators(df)` from src/app.py lines 86-92: returns None when
the frame is empty or has fewer than 21 rows; otherwise appends the RSI(14),
SMA(9) and SMA(21) columns to the existing rows and returns the frame. -/
def compute_indicators (df : List Candle) : Option (List IndicatorRow) :=
  if df.isEmpty || df.length < 21 then none
  else
    let closes := df.map (·.close)
    some (df.enum.map (fun p =>
      ⟨p.2, rsiAt 14 closes p.1, smaAt 9 closes p.1, smaAt 21 closes p.1⟩))

/-- A pandas comparison `price > b` where price may be NaN: NaN compares
false against every number. -/
def gtNaN (a : Option ℚ) (b : ℚ) : Bool :=
  match a with
  | some x => decide (b < x)
  | none => false

/-- `generate_signal(df)` from src/app.py lines 94-102: Error when the frame
is None or empty; Not Available when any of the RSI, SMA_9, SMA_21 cells of
the last row is NaN (the close cell is not checked); otherwise the strict
precedence chain STRONG BUY, BUY, OVERBOUGHT, HOLD over the last row. -/
def generate_signal (df : Option (List SignalRow)) : Signal :=
  match df with
  | none => .error
  | some rows =>
    match rows.getLast? with
    | none => .error
    | some latest =>
      if latest.rsi.isNone || latest.sma9.isNone || latest.sma21.isNone then .notAvailable
      else
        let rsi := latest.rsi.getD 0
        let sma9 := latest.sma9.getD 0
        let sma21 := latest.sma21.getD 0
        if decide (rsi < 30) && gtNaN latest.close sma9 && decide (sma21 < sma9) then .strongBuy
        else if decide (rsi < 40) && gtNaN latest.close sma9 then .buy
        else if decide (70 < rsi) then .overbought
        else .hold

/-- Classification of the frame returned by `compute_indicators`, reading
only the columns `generate_signal` uses. -/
def classifyFrame (o : Option (List IndicatorRow)) : Signal :=
  generate_signal (o.map (fun rows => rows.map IndicatorRow.toSignalRow))

/-- The `st.session_state.last_signal` dictionary: a python dict mapping
symbol to the last recorded signal, `get` returning None when absent. -/
def LastSignalMap := String → Option Signal

/-- The dictionary before any observation: empty, every `get` is None. -/
def emptyLastSignal : LastSignalMap := fun _ => none

/-- `st.session_state.last_signal.get(symbol)`. -/
def lookupSignal (m : LastSignalMap) (sym : String) : Option Signal := m sym

/-- `st.session_state.last_signal[symbol] = signal`. -/
def setSignal (m : LastSignalMap) (sym : String) (sig : Signal) : LastSignalMap :=
  fun s => if s = sym then some sig else m s

/-- The membership test `signal in ['BUY', 'STRONG BUY']` of src/app.py
line 188. -/
def isActionable (sig : Signal) : Bool :=
  sig == .buy || sig == .strongBuy

/-- Lines 188-191 of src/app.py as one tracker step: decide the buy-signal
notification (signal actionable and different from the recorded one), then
record the signal unconditionally. Returns (notify, updated map). -/
def observe (m : LastSignalMap) (sym : String) (sig : Signal) : Bool × LastSignalMap :=
  (isActionable sig && decide (lookupSignal m sym ≠ some sig), setSignal m sym sig)

/-- Repeated observations of one symbol across passes: the list of notify
outcomes in order, plus the final map. -/
def observeSeq (m : LastSignalMap) (sym : String) : List Signal → List Bool × LastSignalMap
  | [] => ([], m)
  | sig :: rest =>
    let step := observe m sym sig
    let tail := observeSeq step.2 sym rest
    (step.1 :: tail.1, tail.2)

/-- One entry of `master_df_data` from src/app.py line 192:
{Coin, Price, RSI, Signal, Chart}. -/
structure ResultRecord where
  coin : String
  price : ℚ
  rsi : Option ℚ
  signal : Signal
  chart : List IndicatorRow
deriving DecidableEq

/-- The mutable state threaded through one pass of the `while True` loop:
accumulated `master_df_data`, the session last_signal dict, and the
arguments of the `send_buy_signal_notification` calls issued so far. -/
structure PassState where
  records : List ResultRecord
  lastSignal : LastSignalMap
  buyNotes : List (String × Signal × ℚ)

/-- The body of the per-symbol for loop, src/app.py lines 175-192: fetch,
skip on an empty frame, skip when compute_indicators returns None, classify,
read price from the last row, notify per the dedup rule, record the signal
and append the result record. `fetch` gives the frame the (cached) kline
fetch returned for each symbol. -/
def processSymbol (fetch : String → List Candle) (ps : PassState) (symbol : String) :
    PassState :=
  let market := fetch symbol
  if market.isEmpty then ps
  else
    match compute_indicators market with
    | none => ps
    | some indicatorRows =>
      let sig := classifyFrame (some indicatorRows)
      match indicatorRows.getLast? with
      | none => ps
      | some latest =>
        let price := latest.candle.close
        let step := observe ps.lastSignal symbol sig
        ⟨ps.records ++ [⟨symbol, price, latest.rsi, sig, indicatorRows⟩],
         step.2,
         if step.1 then ps.buyNotes ++ [(symbol, sig, price)] else ps.buyNotes⟩

/-- One full pass of the `while True` loop over the symbol list, src/app.py
lines 170-214: run the per-symbol loop, then `has_critical_error` is set
exactly when `master_df_data` is empty, and the heartbeat notification is
invoked exactly when `has_critical_error` is false. Returns the final pass
state, the critical-error flag, and whether the heartbeat was invoked. -/
def runPass (fetch : String → List Candle) (symbols : List String)
    (st0 : LastSignalMap) : PassState × Bool × Bool :=
  let final := symbols.foldl (processSymbol fetch) ⟨[], st0, []⟩
  let hasCriticalError := final.records.isEmpty
  (final, hasCriticalError, !hasCriticalError)

/-- The result records the per-symbol loop body contributes for one symbol:
empty when the symbol is skipped, one record otherwise. -/
def contribution (fetch : String → List Candle) (symbol : String) : List ResultRecord :=
  let market := fetch symbol
  if market.isEmpty then []
  else
    match compute_indicators market with
    | none => []
    | some indicatorRows =>
      match indicatorRows.getLast? with
      | none => []
      | some latest =>
        [⟨symbol, latest.candle.close, latest.rsi, classifyFrame (some indicatorRows),
          indicatorRows⟩]

/-- A constant candle used as concrete input in several evaluations. -/
def flatCandle (c : ℚ) : Candle := ⟨c, c, c, c, c⟩

/-- A fetch collaborator returning a 20-candle series for every symbol:
every fetch succeeds but the series is below the 21-candle warm-up. -/
def fetch20 : String → List Candle := fun _ => List.replicate 20 (flatCandle 1)

/-- Outcome of one upstream request inside `get_binance_klines`: a parsed
kline frame, or one of the two caught exception classes (HTTPError from
raise_for_status, or any other RequestException). -/
inductive FetchOutcome where
  | ok (data : List Candle)
  | httpError
  | requestError
deriving DecidableEq

/-- The body of `get_binance_klines` (src/app.py lines 60-80) after the
decorator: on success the parsed numeric frame is returned; both error
branches catch the exception and RETURN an ordinary empty DataFrame. -/
def get_binance_klines_body (outcome : FetchOutcome) : List Candle :=
  match outcome with
  | .ok data => data
  | .httpError => []
  | .requestError => []

/-- The store behind the `@st.cache_data(ttl=REFRESH_INTERVAL)` decorator:
for each argument key (symbol, interval, limit) the most recently returned
value together with the time it was stored. -/
structure CacheState where
  entries : List ((String × String × ℕ) × List Candle × ℕ)
deriving DecidableEq

/-- Modelled from the spec: the `st.cache_data` decorator itself is not part
of this repository; per the spec the cache is a time-bounded memo of the
most recent fetch per (instrument, interval) key — a read within ttl of the
stored time returns the stored value without fetching, otherwise the body
runs once and its returned value replaces the entry. `upstream` gives the
outcome of an upstream request as a function of the arguments and the call
time; the Bool result reports whether an upstream request was performed. -/
def cachedGet (upstream : String → String → ℕ → ℕ → FetchOutcome)
    (cache : CacheState) (now : ℕ) (symbol interval : String) (limit : ℕ) :
    List Candle × CacheState × Bool :=
  let key := (symbol, interval, limit)
  match cache.entries.find? (fun e => e.1 == key && decide (now < e.2.2 + REFRESH_INTERVAL)) with
  | some e => (e.2.1, cache, false)
  | none =>
      let v := get_binance_klines_body (upstream symbol interval limit now)
      (v, ⟨(key, v, now) :: cache.entries.filter (fun e => !(e.1 == key))⟩, true)

/-- An upstream collaborator whose every request fails with a network
error. -/
def failingUpstream : String → String → ℕ → ℕ → FetchOutcome :=
  fun _ _ _ _ => .requestError

/-- The placeholder webhook value assigned when no secret is configured,
src/app.py line 20. -/
def DISCORD_WEBHOOK_URL_fallback : String := "YOUR_DISCORD_WEBHOOK_URL_HERE"

/-- Whether `needle` occurs as a contiguous run at the head of `hay`. -/
def startsWithChars : List Char → List Char → Bool
  | [], _ => true
  | _ :: _, [] => false
  | a :: as, b :: bs => a == b && startsWithChars as bs

/-- Whether `needle` occurs as a contiguous run anywhere in the list:
the python substring test `needle in hay`. -/
def hasSubChars (needle : List Char) : List Char → Bool
  | [] => startsWithChars needle []
  | hay@(_ :: rest) => startsWithChars needle hay || hasSubChars needle rest

/-- The python membership test `"YOUR_DISCORD" in DISCORD_WEBHOOK_URL`. -/
def strContains (needle hay : String) : Bool :=
  hasSubChars needle.toList hay.toList

/-- `send_buy_signal_notification` (src/app.py lines 135-141): returns
immediately when the webhook still holds the placeholder; otherwise posts
one embed whose color is 3066993 for BUY and 5763719 otherwise. The result
is the color of the posted embed, none when nothing is posted. -/
def send_buy_signal_notification (webhookUrl : String) (coin : String)
    (sig : Signal) (price : ℚ) : Option ℕ :=
  if strContains "YOUR_DISCORD" webhookUrl then none
  else some (if sig == .buy then 3066993 else 5763719)

/-- `send_heartbeat_notification` (src/app.py lines 143-148): returns
immediately on the placeholder; otherwise posts one embed with color
3447003. -/
def send_heartbeat_notification (webhookUrl : String) : Option ℕ :=
  if strContains "YOUR_DISCORD" webhookUrl then none
  else some 3447003

/-- `send_bot_started_notification` (src/app.py lines 150-155): returns
immediately on the placeholder; otherwise posts one embed with color
5763719. -/
def send_bot_started_notification (webhookUrl : String) : Option ℕ :=
  if strContains "YOUR_DISCORD" webhookUrl then none
  else some 5763719

end FutureSignals

namespace FutureSignals

theorem compute_indicators_eq_none {df : List Candle} :
    compute_indicators df = none ↔ df.length < 21 := by
  unfold compute_indicators
  rcases df with _ | ⟨c, rest⟩
  · simp [List.isEmpty]
  · simp [List.isEmpty]
    omega

theorem compute_indicators_length {df : List Candle} {rows : List IndicatorRow}
    (h : compute_indicators df = some rows) : rows.length = df.length := by
  unfold compute_indicators at h
  by_cases hc : df.isEmpty || df.length < 21
  · simp [hc] at h
  · simp only [if_neg hc, Option.some.injEq] at h
    subst h
    simp [List.enum_length]

theorem compute_indicators_some_length {df : List Candle} {rows : List IndicatorRow}
    (h : compute_indicators df = some rows) : 21 ≤ df.length := by
  by_contra hlt
  have hnone : compute_indicators df = none := compute_indicators_eq_none.mpr (by omega)
  rw [h] at hnone
  exact Option.noConfusion hnone

theorem processSymbol_records (fetch : String → List Candle) (ps : PassState)
    (s : String) :
    (processSymbol fetch ps s).records = ps.records ++ contribution fetch s := by
  unfold processSymbol contribution
  by_cases he : (fetch s).isEmpty
  · simp [he]
  · simp only [he, Bool.false_eq_true, if_false]
    rcases hco : compute_indicators (fetch s) with _ | rows
    · simp
    · rcases hl : rows.getLast? with _ | latest <;> simp [hl]

theorem processSymbol_lastSignal_skip (fetch : String → List Candle) (ps : PassState)
    {s : String} (hs : (fetch s).length < 21) (t : String) :
    lookupSignal (processSymbol fetch ps t).lastSignal s = lookupSignal ps.lastSignal s := by
  unfold processSymbol
  by_cases he : (fetch t).isEmpty
  · simp [he]
  · simp only [he, Bool.false_eq_true, if_false]
    rcases hco : compute_indicators (fetch t) with _ | rows
    · simp
    · have hts : t ≠ s := by
        intro hts
        subst hts
        exact absurd (compute_indicators_some_length hco) (by omega)
      have hst : s ≠ t := Ne.symm hts
      rcases hl : rows.getLast? with _ | latest
      · simp [hl]
      · simp [hl, observe, setSignal, lookupSignal, hst]

theorem foldl_processSymbol_records (fetch : String → List Candle) :
    ∀ (symbols : List String) (ps : PassState),
      (symbols.foldl (processSymbol fetch) ps).records =
        ps.records ++ (symbols.map (contribution fetch)).flatten := by
  intro symbols
  induction symbols with
  | nil => intro ps; simp
  | cons t rest ih =>
    intro ps
    simp only [List.foldl_cons, List.map_cons, List.flatten_cons]
    rw [ih, processSymbol_records, List.append_assoc]

theorem foldl_processSymbol_lastSignal_skip (fetch : String → List Candle)
    {s : String} (hs : (fetch s).length < 21) :
    ∀ (symbols : List String) (ps : PassState),
      lookupSignal (symbols.foldl (processSymbol fetch) ps).lastSignal s =
        lookupSignal ps.lastSignal s := by
  intro symbols
  induction symbols with
  | nil => intro ps; rfl
  | cons t rest ih =>
    intro ps
    simp only [List.foldl_cons]
    rw [ih, processSymbol_lastSignal_skip fetch ps hs t]

theorem contribution_eq_nil (fetch : String → List Candle) (s : String) :
    contribution fetch s = [] ↔ (fetch s).length < 21 := by
  unfold contribution
  by_cases he : (fetch s).isEmpty
  · have hfe : fetch s = [] := List.isEmpty_iff.mp he
    simp [he, hfe]
  · simp only [he, Bool.false_eq_true, if_false]
    rcases hco : compute_indicators (fetch s) with _ | rows
    · simpa using compute_indicators_eq_none.mp hco
    · have hlen := compute_indicators_length hco
      have h21 := compute_indicators_some_length hco
      have hne : rows ≠ [] := by
        intro hnil; rw [hnil] at hlen; simp at hlen; omega
      rcases hl : rows.getLast? with _ | latest
      · exact absurd (List.getLast?_eq_none_iff.mp hl) hne
      · simp [hl]; omega

theorem contribution_coin {fetch : String → List Candle} {s : String}
    {r : ResultRecord} (h : r ∈ contribution fetch s) : r.coin = s := by
  unfold contribution at h
  by_cases he : (fetch s).isEmpty
  · simp [he] at h
  · simp only [he, Bool.false_eq_true, if_false] at h
    rcases hco : compute_indicators (fetch s) with _ | rows <;> simp only [hco] at h
    · simp at h
    · rcases hl : rows.getLast? with _ | latest <;> simp only [hl] at h
      · simp at h
      · simp at h; rw [h]

theorem wilderSmooth_zero (period m : ℕ) :
    wilderSmooth period 0 (List.replicate m (0:ℚ)) = 0 := by
  induction m with
  | zero => rfl
  | succ k ih =>
    rw [List.replicate_succ]
    unfold wilderSmooth at ih ⊢
    rw [List.foldl_cons]
    simpa using ih

theorem rsiLast_flat (n : ℕ) (c : ℚ) (h : 15 ≤ n) :
    rsiLast 14 (List.replicate n c) = some 100 := by
  have hd : ((List.replicate n c).zip ((List.replicate n c).drop 1)).map
      (fun p => p.2 - p.1) = List.replicate (n - 1) (0:ℚ) := by
    rw [List.drop_replicate, List.zip_replicate, List.map_replicate]
    have hmin : min n (n - 1) = n - 1 := by omega
    rw [hmin]
    simp
  simp only [rsiLast]
  rw [hd]
  rw [if_neg (by simp; omega)]
  simp only [List.map_replicate, neg_zero, max_self, List.take_replicate, List.drop_replicate,
    List.sum_replicate, smul_zero, zero_div, wilderSmooth_zero]
  simp

theorem smaAt_flat (k n : ℕ) (c : ℚ) (hk : 0 < k) (hkn : k ≤ n) :
    smaAt k (List.replicate n c) (n - 1) = some c := by
  unfold smaAt
  have h1 : n - 1 + 1 = n := by omega
  have hk0 : (k:ℚ) ≠ 0 := Nat.cast_ne_zero.mpr (by omega)
  rw [if_pos]
  · rw [h1, List.drop_replicate, List.take_replicate]
    have h2 : min k (n - (n - k)) = k := by omega
    rw [h2, List.sum_replicate, nsmul_eq_mul]
    rw [mul_div_cancel_left₀ c hk0]
  · refine ⟨by rw [h1]; exact hkn, ?_⟩
    rw [List.length_replicate]
    omega

theorem getLast?_enum_map {α β : Type _} (f : ℕ × α → β) (l : List α) :
    (l.enum.map f).getLast? = (l[l.length - 1]?).map (fun a => f (l.length - 1, a)) := by
  rw [List.getLast?_eq_getElem?]
  rw [List.length_map, List.enum_length]
  rw [List.getElem?_map, List.getElem?_enum]
  rw [Option.map_map]
  rfl

theorem runPass_records_coin (fetch : String → List Candle) (symbols : List String)
    (st0 : LastSignalMap) {s : String} (hs : (fetch s).length < 21) :
    ∀ r ∈ (runPass fetch symbols st0).1.records, r.coin ≠ s := by
  intro r hr
  unfold runPass at hr
  simp only at hr
  rw [foldl_processSymbol_records] at hr
  simp only [List.nil_append] at hr
  rcases List.mem_flatten.mp hr with ⟨l, hl, hrl⟩
  rcases List.mem_map.mp hl with ⟨t, htmem, ht⟩
  rw [← ht] at hrl
  have hcoin : r.coin = t := contribution_coin hrl
  intro hrs
  have hts : t = s := by rw [← hcoin, hrs]
  rw [hts] at hrl
  rw [(contribution_eq_nil fetch s).mpr hs] at hrl
  exact absurd hrl (List.not_mem_nil r)

end FutureSignals

namespace FutureSignals

/-- C1: with all four fields present, classification follows the fixed
precedence chain with strict inequalities; a snapshot satisfying both the
StrongBuy and Buy criteria classifies StrongBuy; rsi = 30 with
price > sma9 > sma21 falls through to Buy, and rsi = 40 with price > sma9
falls through to Hold. -/
theorem c1_classification_precedence :
    (∀ p r s9 s21 : ℚ,
      generate_signal (some [⟨some p, some r, some s9, some s21⟩]) =
        (if r < 30 ∧ s9 < p ∧ s21 < s9 then Signal.strongBuy
         else if r < 40 ∧ s9 < p then Signal.buy
         else if 70 < r then Signal.overbought
         else Signal.hold))
    ∧ generate_signal (some [⟨some 110, some 25, some 105, some 100⟩]) = Signal.strongBuy
    ∧ generate_signal (some [⟨some 110, some 30, some 105, some 100⟩]) = Signal.buy
    ∧ generate_signal (some [⟨some 110, some 40, some 105, some 100⟩]) = Signal.hold := by
  refine ⟨?_, by decide, by decide, by decide⟩
  intro p r s9 s21
  by_cases h1 : r < 30 <;> by_cases h2 : s9 < p <;> by_cases h3 : s21 < s9 <;>
    by_cases h4 : r < 40 <;> by_cases h5 : 70 < r <;>
      simp [generate_signal, gtNaN, h1, h2, h3, h4, h5]

/-- C1 witness: the precedence equation applied at a concrete snapshot
satisfying the StrongBuy criteria. -/
theorem c1_classification_precedence_witness :
    generate_signal (some [⟨some 110, some 25, some 105, some 100⟩]) =
      (if (25:ℚ) < 30 ∧ (105:ℚ) < 110 ∧ (100:ℚ) < 105 then Signal.strongBuy
       else if (25:ℚ) < 40 ∧ (105:ℚ) < 110 then Signal.buy
       else if (70:ℚ) < 25 then Signal.overbought
       else Signal.hold) :=
  c1_classification_precedence.1 110 25 105 100

/-- C2: the tracker notifies iff the observed signal is Buy or StrongBuy and
differs from the prior recorded signal; the recorded signal is updated on
every observation; Buy twice notifies only the first time, and
Buy, Hold, Buy notifies on the first and third observations. -/
theorem c2_tracker_dedup :
    (∀ (m : LastSignalMap) (sym : String) (sig : Signal),
      ((observe m sym sig).1 = true ↔
        ((sig = .buy ∨ sig = .strongBuy) ∧ lookupSignal m sym ≠ some sig))
      ∧ lookupSignal (observe m sym sig).2 sym = some sig)
    ∧ (observeSeq emptyLastSignal "X" [.buy, .buy]).1 = [true, false]
    ∧ (observeSeq emptyLastSignal "X" [.buy, .hold, .buy]).1 = [true, false, true] := by
  refine ⟨fun m sym sig => ⟨?_, ?_⟩, ?_, ?_⟩
  · cases sig <;> simp [observe, isActionable, lookupSignal]
  · simp [observe, setSignal, lookupSignal]
  · simp [observeSeq, observe, isActionable, lookupSignal, setSignal, emptyLastSignal]
  · simp [observeSeq, observe, isActionable, lookupSignal, setSignal, emptyLastSignal]

/-- C2 witness: the transition rule applied at the empty map observing a
concrete Buy. -/
theorem c2_tracker_dedup_witness :
    ((observe emptyLastSignal "X" Signal.buy).1 = true ↔
      ((Signal.buy = .buy ∨ Signal.buy = .strongBuy)
        ∧ lookupSignal emptyLastSignal "X" ≠ some Signal.buy))
    ∧ lookupSignal (observe emptyLastSignal "X" Signal.buy).2 "X" = some Signal.buy :=
  c2_tracker_dedup.1 emptyLastSignal "X" Signal.buy

/-- C3 counterexample: with one configured instrument whose fetch SUCCEEDS
but returns a 20-candle series, the claim says criticalFailure must be
false and the heartbeat must fire; the code sets the critical flag (the
record list is empty) and suppresses the heartbeat, so the flag is not
equivalent to every fetch failing. -/
theorem c3_counterexample :
    (runPass fetch20 ["BTCUSDT"] emptyLastSignal).2.1 = true
    ∧ (runPass fetch20 ["BTCUSDT"] emptyLastSignal).2.2 = false
    ∧ fetch20 "BTCUSDT" ≠ [] := by
  refine ⟨?_, ?_, by decide⟩ <;> rfl

/-- C3 amended: the pass-level critical flag is true iff no instrument
produced a result record, i.e. iff every instrument fetch returned an empty
frame or a series of fewer than 21 candles; the heartbeat notification is
invoked exactly when the flag is false. -/
theorem c3_critical_failure_amended (fetch : String → List Candle)
    (symbols : List String) (st0 : LastSignalMap) :
    ((runPass fetch symbols st0).2.1 = true ↔
      ∀ s ∈ symbols, (fetch s).length < 21)
    ∧ (runPass fetch symbols st0).2.2 = !(runPass fetch symbols st0).2.1 := by
  constructor
  · unfold runPass
    simp only [List.isEmpty_iff]
    rw [foldl_processSymbol_records]
    simp only [List.nil_append]
    rw [List.flatten_eq_nil_iff]
    constructor
    · intro h s hs
      exact (contribution_eq_nil fetch s).mp (h _ (List.mem_map_of_mem _ hs))
    · intro h l hl
      rcases List.mem_map.mp hl with ⟨s, hs, hcs⟩
      rw [← hcs]
      exact (contribution_eq_nil fetch s).mpr (h s hs)
  · rfl

/-- C3 witness: the amended equivalence applied at the concrete
one-instrument pass whose fetch yields 20 candles. -/
theorem c3_critical_failure_amended_witness :
    (runPass fetch20 ["BTCUSDT"] emptyLastSignal).2.1 = true :=
  (c3_critical_failure_amended fetch20 ["BTCUSDT"] emptyLastSignal).1.mpr
    (by intro s _; simp [fetch20])

/-- C4 counterexample: on a series of exactly 20 candles the indicator
computation returns None, not a snapshot with absent fields; classifying
None yields Error, not Unavailable; and the refresh loop omits the
instrument from the pass (empty record list, tracker untouched). -/
theorem c4_counterexample :
    compute_indicators (List.replicate 20 (flatCandle 1)) = none
    ∧ generate_signal none = Signal.error
    ∧ (runPass fetch20 ["BTCUSDT"] emptyLastSignal).1.records = []
    ∧ lookupSignal (runPass fetch20 ["BTCUSDT"] emptyLastSignal).1.lastSignal "BTCUSDT"
        = none := by
  exact ⟨rfl, rfl, rfl, rfl⟩

/-- C4 amended: a series of fewer than 21 candles makes compute_indicators
return None rather than a snapshot; generate_signal maps None to Error; and
in the refresh loop such an instrument is skipped: it contributes no result
record and its tracker state is left unchanged for that pass. -/
theorem c4_short_series_amended :
    generate_signal none = Signal.error
    ∧ (∀ df : List Candle, df.length < 21 → compute_indicators df = none)
    ∧ (∀ (fetch : String → List Candle) (symbols : List String)
        (st0 : LastSignalMap) (s : String), (fetch s).length < 21 →
        (∀ r ∈ (runPass fetch symbols st0).1.records, r.coin ≠ s)
        ∧ lookupSignal (runPass fetch symbols st0).1.lastSignal s = lookupSignal st0 s) := by
  refine ⟨rfl, fun df h => compute_indicators_eq_none.mpr h, ?_⟩
  intro fetch symbols st0 s hs
  refine ⟨runPass_records_coin fetch symbols st0 hs, ?_⟩
  unfold runPass
  exact foldl_processSymbol_lastSignal_skip fetch hs symbols ⟨[], st0, []⟩

/-- C4 witness: the amended statement applied at a concrete 20-candle
series and a concrete one-instrument pass. -/
theorem c4_short_series_amended_witness :
    compute_indicators (List.replicate 20 (flatCandle 1)) = none
    ∧ lookupSignal (runPass fetch20 ["BTCUSDT"] emptyLastSignal).1.lastSignal "BTCUSDT"
        = lookupSignal emptyLastSignal "BTCUSDT" :=
  ⟨c4_short_series_amended.2.1 (List.replicate 20 (flatCandle 1)) (by simp),
   (c4_short_series_amended.2.2 fetch20 ["BTCUSDT"] emptyLastSignal "BTCUSDT"
      (by simp [fetch20])).2⟩

/-- C5 counterexample: one instrument with a prior Hold state whose fetch
fails (empty frame): the claim says the tracker must move to Error and a
result record must still be accumulated; the code skips the instrument, the
tracker still reads Hold and no record exists. -/
theorem c5_counterexample :
    (runPass (fun _ => []) ["BTCUSDT"] (setSignal emptyLastSignal "BTCUSDT" Signal.hold)
      ).1.records = []
    ∧ lookupSignal
        (runPass (fun _ => []) ["BTCUSDT"] (setSignal emptyLastSignal "BTCUSDT" Signal.hold)
          ).1.lastSignal "BTCUSDT" = some Signal.hold
    ∧ some Signal.hold ≠ some Signal.error := by
  refine ⟨rfl, ?_, by decide⟩
  simp [runPass, processSymbol, lookupSignal, setSignal, List.isEmpty]

/-- C5 amended: an instrument whose fetch fails in a pass is silently
skipped: no Error signal enters the pipeline, its tracker state is left
unchanged, and no result record is accumulated for it. -/
theorem c5_fetch_failure_amended (fetch : String → List Candle)
    (symbols : List String) (st0 : LastSignalMap) (s : String)
    (hfail : fetch s = []) :
    (∀ r ∈ (runPass fetch symbols st0).1.records, r.coin ≠ s)
    ∧ lookupSignal (runPass fetch symbols st0).1.lastSignal s = lookupSignal st0 s := by
  have hs : (fetch s).length < 21 := by rw [hfail]; simp
  refine ⟨runPass_records_coin fetch symbols st0 hs, ?_⟩
  unfold runPass
  exact foldl_processSymbol_lastSignal_skip fetch hs symbols ⟨[], st0, []⟩

/-- C5 witness: the amended statement applied at a concrete failing fetch
with a concrete prior tracker state. -/
theorem c5_fetch_failure_amended_witness :
    lookupSignal
      (runPass (fun _ => []) ["BTCUSDT"] (setSignal emptyLastSignal "BTCUSDT" Signal.hold)
        ).1.lastSignal "BTCUSDT"
      = lookupSignal (setSignal emptyLastSignal "BTCUSDT" Signal.hold) "BTCUSDT" :=
  (c5_fetch_failure_amended (fun _ => []) ["BTCUSDT"]
    (setSignal emptyLastSignal "BTCUSDT" Signal.hold) "BTCUSDT" rfl).2

/-- C6 counterexample: a failing fetch at time 0 returns the empty frame and
that value IS cached; the very next get at time 1 returns the cached empty
result WITHOUT performing a new upstream fetch, contradicting the claim that
the entry stays absent and the next call refetches. -/
theorem c6_counterexample :
    (cachedGet failingUpstream ⟨[]⟩ 0 "BTCUSDT" "1h" 100).1 = []
    ∧ (cachedGet failingUpstream ⟨[]⟩ 0 "BTCUSDT" "1h" 100).2.2 = true
    ∧ (cachedGet failingUpstream
        (cachedGet failingUpstream ⟨[]⟩ 0 "BTCUSDT" "1h" 100).2.1
        1 "BTCUSDT" "1h" 100).1 = []
    ∧ (cachedGet failingUpstream
        (cachedGet failingUpstream ⟨[]⟩ 0 "BTCUSDT" "1h" 100).2.1
        1 "BTCUSDT" "1h" 100).2.2 = false := by
  exact ⟨rfl, rfl, rfl, rfl⟩

/-- C6 amended: a fetch failure is converted to an empty frame inside the
body and that empty frame is cached like any value: any get for the same key
within the ttl returns the cached empty result with no upstream request, and
only a get at or after expiry performs a new upstream request. -/
theorem c6_failure_cached_amended (up : String → String → ℕ → ℕ → FetchOutcome)
    (t1 t2 : ℕ) (sym iv : String) (lim : ℕ)
    (hfail : get_binance_klines_body (up sym iv lim t1) = []) :
    (cachedGet up ⟨[]⟩ t1 sym iv lim).1 = []
    ∧ (cachedGet up ⟨[]⟩ t1 sym iv lim).2.2 = true
    ∧ (t2 < t1 + REFRESH_INTERVAL →
        (cachedGet up (cachedGet up ⟨[]⟩ t1 sym iv lim).2.1 t2 sym iv lim).1 = []
        ∧ (cachedGet up (cachedGet up ⟨[]⟩ t1 sym iv lim).2.1 t2 sym iv lim).2.2 = false)
    ∧ (t1 + REFRESH_INTERVAL ≤ t2 →
        (cachedGet up (cachedGet up ⟨[]⟩ t1 sym iv lim).2.1 t2 sym iv lim).2.2 = true) := by
  have h1 : cachedGet up ⟨[]⟩ t1 sym iv lim
      = ([], ⟨[((sym, iv, lim), [], t1)]⟩, true) := by
    simp [cachedGet, hfail]
  refine ⟨by rw [h1], by rw [h1], ?_, ?_⟩
  · intro ht
    rw [h1]
    simp [cachedGet, List.find?, ht]
  · intro ht
    rw [h1]
    have hnot : ¬ t2 < t1 + REFRESH_INTERVAL := by omega
    simp [cachedGet, List.find?, hnot]

/-- C6 witness: the amended statement applied at a concrete always-failing
upstream, a first call at time 0 and a second call at time 1. -/
theorem c6_failure_cached_amended_witness :
    (cachedGet failingUpstream
      (cachedGet failingUpstream ⟨[]⟩ 0 "ETHUSDT" "1h" 100).2.1
      1 "ETHUSDT" "1h" 100).2.2 = false :=
  ((c6_failure_cached_amended failingUpstream 0 1 "ETHUSDT" "1h" 100 rfl).2.2.1
    (by decide)).2

/-- C7 counterexample: a snapshot whose price cell is NaN but whose rsi,
sma9 and sma21 are present classifies Hold, not Unavailable: the NaN check
of generate_signal covers only the RSI, SMA_9 and SMA_21 columns. -/
theorem c7_counterexample :
    generate_signal (some [⟨none, some 25, some 105, some 100⟩]) = Signal.hold
    ∧ Signal.hold ≠ Signal.notAvailable := by
  exact ⟨rfl, by decide⟩

/-- C7 amended: absence of any of rsi, sma9, sma21 in the last row yields
Unavailable regardless of the other fields, but an absent price alone does
not: with the three indicator fields present and price absent every price
comparison is false, so the result is Overbought when rsi exceeds 70 and
Hold otherwise. -/
theorem c7_absent_fields_amended :
    (∀ (rows : List SignalRow) (row : SignalRow), rows.getLast? = some row →
      (row.rsi = none ∨ row.sma9 = none ∨ row.sma21 = none) →
      generate_signal (some rows) = Signal.notAvailable)
    ∧ (∀ r s9 s21 : ℚ,
        generate_signal (some [⟨none, some r, some s9, some s21⟩]) =
          (if 70 < r then Signal.overbought else Signal.hold)) := by
  constructor
  · intro rows row hlast habs
    simp only [generate_signal, hlast]
    rcases habs with h | h | h <;> simp [h]
  · intro r s9 s21
    by_cases h5 : 70 < r <;> simp [generate_signal, gtNaN, h5]

/-- C7 amended witness: applied at a concrete one-row frame with an absent
rsi and at the concrete absent-price row. -/
theorem c7_absent_fields_amended_witness :
    generate_signal (some [⟨some 100, none, some 105, some 100⟩]) = Signal.notAvailable :=
  c7_absent_fields_amended.1 [⟨some 100, none, some 105, some 100⟩]
    ⟨some 100, none, some 105, some 100⟩ rfl (Or.inl rfl)

/-- C9: each of the three notification functions returns without posting
whenever the configured webhook URL contains the placeholder substring, and
the fallback URL used when no secret is configured does contain it, so an
unconfigured process emits no notification at all. -/
theorem c9_placeholder_suppresses_notifications :
    (∀ (url coin : String) (sig : Signal) (price : ℚ),
      strContains "YOUR_DISCORD" url = true →
      send_buy_signal_notification url coin sig price = none)
    ∧ (∀ url : String, strContains "YOUR_DISCORD" url = true →
        send_heartbeat_notification url = none)
    ∧ (∀ url : String, strContains "YOUR_DISCORD" url = true →
        send_bot_started_notification url = none)
    ∧ strContains "YOUR_DISCORD" DISCORD_WEBHOOK_URL_fallback = true
    ∧ (∀ (coin : String) (sig : Signal) (price : ℚ),
        send_buy_signal_notification DISCORD_WEBHOOK_URL_fallback coin sig price = none)
    ∧ send_heartbeat_notification DISCORD_WEBHOOK_URL_fallback = none
    ∧ send_bot_started_notification DISCORD_WEBHOOK_URL_fallback = none := by
  refine ⟨?_, ?_, ?_, by decide, ?_, by decide, by decide⟩
  · intro url coin sig price h
    simp [send_buy_signal_notification, h]
  · intro url h
    simp [send_heartbeat_notification, h]
  · intro url h
    simp [send_bot_started_notification, h]
  · intro coin sig price
    simp [send_buy_signal_notification]
    decide

/-- C9 witness: the suppression applied at the fallback URL with a concrete
coin, signal and price. -/
theorem c9_placeholder_suppresses_notifications_witness :
    send_buy_signal_notification DISCORD_WEBHOOK_URL_fallback "BTCUSDT" Signal.buy 100 = none
    ∧ send_heartbeat_notification DISCORD_WEBHOOK_URL_fallback = none :=
  ⟨c9_placeholder_suppresses_notifications.1 DISCORD_WEBHOOK_URL_fallback "BTCUSDT"
      Signal.buy 100 (by decide),
   c9_placeholder_suppresses_notifications.2.1 DISCORD_WEBHOOK_URL_fallback (by decide)⟩

/-- C10: on a series of at least 21 candles the indicator computation keeps
every existing row with its original open, high, low, close and volume
values, merely appending the derived columns: projecting the output rows
back to their candles returns the input frame, with the same row count. -/
theorem c10_frame_preservation (df : List Candle) (h : 21 ≤ df.length) :
    ∃ rows, compute_indicators df = some rows
      ∧ rows.map IndicatorRow.candle = df
      ∧ rows.length = df.length := by
  have hc : (df.isEmpty || decide (df.length < 21)) = false := by
    refine Bool.or_eq_false_iff.mpr ⟨?_, by simp; omega⟩
    cases df with
    | nil => simp at h
    | cons a l => rfl
  refine ⟨df.enum.map (fun p =>
      ⟨p.2, rsiAt 14 (df.map (·.close)) p.1, smaAt 9 (df.map (·.close)) p.1,
        smaAt 21 (df.map (·.close)) p.1⟩), ?_, ?_, ?_⟩
  · unfold compute_indicators
    rw [hc]
    rfl
  · rw [List.map_map]
    exact List.enum_map_snd df
  · simp [List.enum_length]

/-- C8: on a series of at least 21 candles with identical closes the RSI is
100 by the denominator-zero convention of the modelled oscillator, every
field of the final snapshot is present, and classification falls into the
Overbought rule (price > sma9 fails since price = sma9, rsi > 70 holds). -/
theorem c8_flat_series_overbought (n : ℕ) (c : ℚ) (h : 21 ≤ n) :
    rsiLast 14 (List.replicate n c) = some 100
    ∧ classifyFrame (compute_indicators (List.replicate n (flatCandle c)))
        = Signal.overbought := by
  have hrsiL : rsiLast 14 (List.replicate n c) = some 100 := rsiLast_flat n c (by omega)
  refine ⟨hrsiL, ?_⟩
  have hcond : ((List.replicate n (flatCandle c)).isEmpty
      || decide ((List.replicate n (flatCandle c)).length < 21)) = false := by
    refine Bool.or_eq_false_iff.mpr ⟨?_, by simp; omega⟩
    cases hn : n with
    | zero => omega
    | succ k => rw [List.replicate_succ]; rfl
  have hci : compute_indicators (List.replicate n (flatCandle c))
      = some ((List.replicate n (flatCandle c)).enum.map (fun p =>
          ⟨p.2, rsiAt 14 ((List.replicate n (flatCandle c)).map (·.close)) p.1,
            smaAt 9 ((List.replicate n (flatCandle c)).map (·.close)) p.1,
            smaAt 21 ((List.replicate n (flatCandle c)).map (·.close)) p.1⟩)) := by
    unfold compute_indicators
    rw [hcond]
    rfl
  have hclose : (List.replicate n (flatCandle c)).map (·.close) = List.replicate n c := by
    rw [List.map_replicate]
    rfl
  rw [hclose] at hci
  have hrsiAt : rsiAt 14 (List.replicate n c) (n - 1) = some 100 := by
    unfold rsiAt
    have h1 : n - 1 + 1 = n := by omega
    rw [h1, List.take_replicate, min_self]
    exact hrsiL
  have hlast : ((List.replicate n (flatCandle c)).enum.map (fun p =>
      (⟨p.2, rsiAt 14 (List.replicate n c) p.1, smaAt 9 (List.replicate n c) p.1,
        smaAt 21 (List.replicate n c) p.1⟩ : IndicatorRow))).getLast?
      = some ⟨flatCandle c, some 100, some c, some c⟩ := by
    rw [getLast?_enum_map, List.length_replicate, List.getElem?_replicate,
      if_pos (by omega : n - 1 < n)]
    simp only [Option.map_some']
    rw [hrsiAt, smaAt_flat 9 n c (by omega) (by omega),
      smaAt_flat 21 n c (by omega) (by omega)]
  have hlastS : (((List.replicate n (flatCandle c)).enum.map (fun p =>
      (⟨p.2, rsiAt 14 (List.replicate n c) p.1, smaAt 9 (List.replicate n c) p.1,
        smaAt 21 (List.replicate n c) p.1⟩ : IndicatorRow))).map
        IndicatorRow.toSignalRow).getLast?
      = some ⟨some c, some 100, some c, some c⟩ := by
    rw [List.getLast?_map, hlast]
    rfl
  rw [hci]
  unfold classifyFrame
  simp only [Option.map_some']
  simp only [generate_signal, hlastS]
  norm_num [gtNaN, lt_self_iff_false]

/-- C8 witness: the flat-series statement applied at 21 candles of close
100. -/
theorem c8_flat_series_overbought_witness :
    rsiLast 14 (List.replicate 21 (100:ℚ)) = some 100
    ∧ classifyFrame (compute_indicators (List.replicate 21 (flatCandle 100)))
        = Signal.overbought :=
  c8_flat_series_overbought 21 100 (by decide)

/-- C10 witness: the preservation applied at a concrete 21-candle frame. -/
theorem c10_frame_preservation_witness :
    21 ≤ (List.replicate 21 (flatCandle 1)).length
    ∧ ∃ rows, compute_indicators (List.replicate 21 (flatCandle 1)) = some rows
      ∧ rows.map IndicatorRow.candle = List.replicate 21 (flatCandle 1)
      ∧ rows.length = (List.replicate 21 (flatCandle 1)).length :=
  ⟨by decide, c10_frame_preservation (List.replicate 21 (flatCandle 1)) (by decide)⟩

end FutureSignals
